import Mathlib

/-!
Verification of the tokenpass-desktop supervisor, settings store, singleton
lock, health prober and deep-link handler against the natural-language
specification.  The definitions below are a shallow embedding of the
TypeScript sources: the Electron variant lives in `src/src/index.ts` and the
Electrobun variant in `src/src/bun/index.ts`.  Platform primitives that are
not part of the repository (the fetch call with its abort timer, the WHATWG
URL parser, the filesystem, process liveness) are modelled by explicit
environment values; every decision made by repository code is translated
line by line.
-/

namespace TokenPass

/-- Substring check on character lists used to model the JavaScript
`String.prototype.includes` (case-sensitive, exact characters):
`prefChars p s` holds when `p` is an initial segment of `s`. -/
def prefChars : List Char → List Char → Bool
  | [], _ => true
  | _ :: _, [] => false
  | a :: as, b :: bs => a == b && prefChars as bs

/-- Substring check: `subChars p s` holds when `p` occurs contiguously in
`s`. -/
def subChars (pat : List Char) : List Char → Bool
  | [] => pat.isEmpty
  | c :: t => prefChars pat (c :: t) || subChars pat t

/-- Model of the JavaScript `line.includes(pat)` substring test. -/
def strIncludes (s pat : String) : Bool :=
  subChars pat.toList s.toList

/-- Server status enum of both variants:
`let serverStatus: "starting" | "running" | "error" = "starting"`. -/
inductive ServerStatus
  | starting
  | running
  | error
  deriving DecidableEq, Repr

/-- Supervisor state.  `serverStatus` and `startRetries` are the module
globals of the source; `serverProc` is the tracked child-process handle
(modelled as the pid the OS assigned); `nextPid` is the pid the next spawn
will return; `killed` records, in order, every pid that received a kill
signal; `pendingRestart` records an outstanding
`setTimeout(() => startServer(), 2000)` from the exit handler. -/
structure SupState where
  serverStatus : ServerStatus
  startRetries : Nat
  serverProc : Option Nat
  nextPid : Nat
  killed : List Nat
  pendingRestart : Bool
  deriving DecidableEq, Repr

/-- `const MAX_START_RETRIES = 3` in both variants. -/
def MAX_START_RETRIES : Nat := 3

/-- `const SERVER_PORT = 21000` in both variants. -/
def SERVER_PORT : Nat := 21000

/-- Initial values of the module globals in both variants. -/
def initState : SupState :=
  { serverStatus := .starting, startRetries := 0, serverProc := none,
    nextPid := 0, killed := [], pendingRestart := false }

/-- Shared prelude of `startServer` in both variants: kill and clear any
tracked child process (`serverProc.kill(); serverProc = null`). -/
def killTracked (s : SupState) : SupState :=
  match s.serverProc with
  | some pid => { s with killed := s.killed ++ [pid], serverProc := none }
  | none => s

/-- Readiness-marker test of both stdout handlers:
`line.includes("Ready") || line.includes("started")`. -/
def readyMarker (line : String) : Bool :=
  strIncludes line "Ready" || strIncludes line "started"

/-- Stdout line handler of both variants: on a marker line set
`serverStatus = "running"` and `startRetries = 0`, otherwise do nothing
(only logging happens). -/
def onStdoutLine (line : String) (s : SupState) : SupState :=
  if readyMarker line = true then
    { s with serverStatus := .running, startRetries := 0 }
  else s

/-- Filesystem facts consulted by the Electrobun `startServer`:
`existsSync(serverDir)` and `existsSync(serverJsPath)`. -/
structure Env where
  serverDirExists : Bool
  serverJsExists : Bool
  deriving DecidableEq, Repr

/-- Environment in which the server artifacts are present. -/
def goodEnv : Env := { serverDirExists := true, serverJsExists := true }

namespace Bun

/-- `startServer` of `src/src/bun/index.ts` lines 205-247: kill any tracked
process, set status `starting`, increment `startRetries`, fail fast to
`error` when the server directory or `server.js` is absent, otherwise spawn
the child and track its handle. -/
def startServer (env : Env) (s : SupState) : SupState :=
  let s1 := killTracked s
  if env.serverDirExists = true then
    if env.serverJsExists = true then
      { s1 with serverStatus := .starting, startRetries := s1.startRetries + 1,
                serverProc := some s1.nextPid, nextPid := s1.nextPid + 1 }
    else
      { s1 with serverStatus := .error, startRetries := s1.startRetries + 1 }
  else
    { s1 with serverStatus := .error, startRetries := s1.startRetries + 1 }

/-- Exit handler of `src/src/bun/index.ts` lines 294-314: clear the handle;
on a non-zero code set status `error` and, when `startRetries` is below the
ceiling, schedule an automatic restart after the 2 second backoff, else only
notify. -/
def onExit (code : Int) (s : SupState) : SupState :=
  if code ≠ 0 then
    if s.startRetries < MAX_START_RETRIES then
      { s with serverProc := none, serverStatus := .error, pendingRestart := true }
    else
      { s with serverProc := none, serverStatus := .error }
  else
    { s with serverProc := none }

/-- Delivery of the backoff timer scheduled by `onExit`: run `startServer`
when a restart is pending, otherwise do nothing. -/
def fireRestartTimer (env : Env) (s : SupState) : SupState :=
  if s.pendingRestart = true then
    startServer env { s with pendingRestart := false }
  else s

/-- Steady-state health poll of `src/src/bun/index.ts` lines 511-526: only
when status is `running` and the probe fails, move to `error` and restart
immediately when `startRetries` is below the ceiling. -/
def healthTick (env : Env) (healthy : Bool) (s : SupState) : SupState :=
  if s.serverStatus = .running then
    if healthy = false then
      if s.startRetries < MAX_START_RETRIES then
        startServer env { s with serverStatus := .error }
      else
        { s with serverStatus := .error }
    else s
  else s

/-- Manual restart from the tray menu (`case "restart"`): reset
`startRetries` to 0, then `startServer`. -/
def manualRestart (env : Env) (s : SupState) : SupState :=
  startServer env { s with startRetries := 0 }

/-- `releaseSingletonLock` of `src/src/bun/index.ts` lines 89-97: when the
pid file exists, unlink it; either way the file is gone afterwards. -/
def releaseSingletonLock (pidFile : Option Nat) : Option Nat :=
  match pidFile with
  | some _ => none
  | none => none

/-- `acquireSingletonLock` of `src/src/bun/index.ts` lines 69-87.  The pid
file content is the recorded pid (or `none` when the file is absent);
`alive p` models whether `process.kill(p, 0)` succeeds.  A live holder means
failure; a stale or absent file is overwritten with the current pid and the
call succeeds.  Returns the result together with the new file content. -/
def acquireSingletonLock (alive : Nat → Bool) (curPid : Nat)
    (pidFile : Option Nat) : Bool × Option Nat :=
  match pidFile with
  | some p =>
    if alive p = true then (false, some p)
    else (true, some curPid)
  | none => (true, some curPid)

/-- `cleanup` of `src/src/bun/index.ts` lines 487-495: kill and clear the
tracked process when present, then release the singleton lock. -/
def cleanup (s : SupState) (pidFile : Option Nat) : SupState × Option Nat :=
  (killTracked s, releaseSingletonLock pidFile)

end Bun

namespace Electron

/-- `startServer` of `src/src/index.ts` lines 337-415: kill any tracked
process, set status `starting`, increment `startRetries`, spawn and track
the new child (no artifact existence check in this variant; `spawn` returns
a handle synchronously). -/
def startServer (s : SupState) : SupState :=
  let s1 := killTracked s
  { s1 with serverStatus := .starting, startRetries := s1.startRetries + 1,
            serverProc := some s1.nextPid, nextPid := s1.nextPid + 1 }

/-- Close handler of `src/src/index.ts` lines 392-414: clear the handle; on
a code that is neither 0 nor null set status `error` and either schedule the
2 second restart or notify. -/
def onClose (code : Option Int) (s : SupState) : SupState :=
  match code with
  | some c =>
    if c ≠ 0 then
      if s.startRetries < MAX_START_RETRIES then
        { s with serverProc := none, serverStatus := .error, pendingRestart := true }
      else
        { s with serverProc := none, serverStatus := .error }
    else
      { s with serverProc := none }
  | none => { s with serverProc := none }

/-- One tick of `startHealthCheck` in `src/src/index.ts` lines 161-185:
a healthy probe while not `running` sets status `running` (without touching
`startRetries`); a failed probe while `running` sets `error` and restarts
when below the ceiling. -/
def healthTick (healthy : Bool) (s : SupState) : SupState :=
  if healthy = true ∧ ¬ s.serverStatus = .running then
    { s with serverStatus := .running }
  else if healthy = false ∧ s.serverStatus = .running then
    if s.startRetries < MAX_START_RETRIES then
      startServer { s with serverStatus := .error }
    else
      { s with serverStatus := .error }
  else s

/-- One tick of the `waitForServer` interval in `src/src/index.ts` lines
428-445 (readiness part): when status is already `running` or the probe
succeeds, set status `running` and open the dashboard; `startRetries` is not
touched. -/
def waitForServerTick (healthy : Bool) (s : SupState) : SupState :=
  if s.serverStatus = .running ∨ healthy = true then
    { s with serverStatus := .running }
  else s

end Electron

/-- Behaviour of the local HTTP target as seen by one HEAD request:
`respondsAfterMs = some t` means an HTTP response with the given status
arrives `t` milliseconds after the request; `none` means the fetch promise
rejects (connection refused, network error).  This models the platform
`fetch` collaborator of `checkServerHealth`; the decision logic itself is
repository code. -/
structure ProbeEnv where
  respondsAfterMs : Option Nat
  status : Nat
  deriving DecidableEq, Repr

/-- Timeout of the abort timer in `checkServerHealth`:
`setTimeout(() => controller.abort(), 3000)`. -/
def FETCH_TIMEOUT_MS : Nat := 3000

/-- The `Response.ok` accessor of the fetch specification: status in the
range 200 to 299. -/
def respOk (status : Nat) : Bool :=
  decide (200 ≤ status) && decide (status < 300)

/-- `checkServerHealth` of `src/src/index.ts` lines 143-158 and
`src/src/bun/index.ts` lines 129-142: a response arriving before the abort
timer fires yields `response.ok || response.status === 304`; a rejection
(refusal, or the abort caused by the timeout) is caught and yields false. -/
def checkServerHealth (e : ProbeEnv) : Bool :=
  match e.respondsAfterMs with
  | some t =>
    if t < FETCH_TIMEOUT_MS then respOk e.status || e.status == 304
    else false
  | none => false

/-- Settings record of `src/src/bun/index.ts` lines 28-31. -/
structure Settings where
  useBetaChannel : Bool
  launchAtLogin : Bool
  deriving DecidableEq, Repr

/-- `defaultSettings` of `src/src/bun/index.ts` lines 33-36. -/
def defaultSettings : Settings :=
  { useBetaChannel := false, launchAtLogin := false }

/-- The recognized fields actually present in a parsed settings document;
a missing field is `none`.  Unrecognized keys are ignored by the spread and
are not represented. -/
structure SettingsDoc where
  useBetaChannel : Option Bool
  launchAtLogin : Option Bool
  deriving DecidableEq, Repr

/-- State of the settings file on disk: absent, unreadable (read or JSON
parse throws), or readable with some subset of the recognized fields. -/
inductive SettingsFile
  | absent
  | unreadable
  | content (doc : SettingsDoc)
  deriving DecidableEq, Repr

/-- `loadSettings` of `src/src/bun/index.ts` lines 38-47: when the file
exists and parses, spread the parsed fields over the defaults so each
missing field individually falls back; on absence or any exception return
the defaults. -/
def loadSettings : SettingsFile → Settings
  | .absent => defaultSettings
  | .unreadable => defaultSettings
  | .content doc =>
    { useBetaChannel := doc.useBetaChannel.getD defaultSettings.useBetaChannel,
      launchAtLogin := doc.launchAtLogin.getD defaultSettings.launchAtLogin }

/-- `saveSettings` of `src/src/bun/index.ts` lines 49-51: serialize the full
record, so both recognized fields are present in the written document. -/
def saveSettings (s : Settings) : SettingsFile :=
  .content { useBetaChannel := some s.useBetaChannel,
             launchAtLogin := some s.launchAtLogin }

/-- Split a character list at the first character satisfying `p`; the
matching character stays at the head of the second component. -/
def takeUntil (p : Char → Bool) : List Char → List Char × List Char
  | [] => ([], [])
  | c :: t =>
    if p c then ([], c :: t)
    else
      let r := takeUntil p t
      (c :: r.1, r.2)

/-- Split a character list on a separator character. -/
def splitOnChar (sep : Char) : List Char → List (List Char)
  | [] => [[]]
  | c :: t =>
    let r := splitOnChar sep t
    if c == sep then [] :: r
    else
      match r with
      | h :: t2 => (c :: h) :: t2
      | [] => [[c]]

/-- ASCII letter test for the URL scheme grammar. -/
def isAlpha (c : Char) : Bool :=
  ('a' ≤ c && c ≤ 'z') || ('A' ≤ c && c ≤ 'Z')

/-- Characters allowed after the first in a URL scheme. -/
def isSchemeChar (c : Char) : Bool :=
  isAlpha c || c.isDigit || c == '+' || c == '-' || c == '.'

/-- One `key=value` pair of a query string; a segment without `=` gets the
empty value, as `URLSearchParams` does. -/
def parsePair (cs : List Char) : String × String :=
  let r := takeUntil (fun c => c == '=') cs
  match r.2 with
  | _ :: v => (String.mk r.1, String.mk v)
  | [] => (String.mk r.1, "")

/-- Query-string parsing of `URLSearchParams`: split on ampersands, drop
empty segments, split each segment at the first equals sign. -/
def parseQuery (cs : List Char) : List (String × String) :=
  ((splitOnChar '&' cs).filter (fun l => !l.isEmpty)).map parsePair

/-- Parsed form of a hierarchical URL as exposed by the WHATWG `URL` class:
scheme, host, `pathname` and the decoded search parameters. -/
structure ParsedURL where
  scheme : String
  host : String
  pathname : String
  query : List (String × String)
  deriving DecidableEq, Repr

/-- Model of the WHATWG `new URL(..)` constructor for the inputs the
deep-link handler receives.  The platform class is an external collaborator;
this model keeps its observable behaviour on scheme-prefixed strings: a
missing or ill-formed scheme throws (here `none`); after `scheme://` the
host runs to the first slash, question mark or hash; the `pathname` keeps
any doubled leading slash verbatim for a non-special scheme; the query
follows the first question mark. -/
def parseURL (s : String) : Option ParsedURL :=
  let r := takeUntil (fun c => c == ':') s.toList
  match r.2 with
  | _ :: rest =>
    match r.1 with
    | [] => none
    | c0 :: ctail =>
      if isAlpha c0 && ctail.all isSchemeChar then
        match rest with
        | '/' :: '/' :: rest2 =>
          let hostSplit := takeUntil (fun c => c == '/' || c == '?' || c == '#') rest2
          let pathSplit := takeUntil (fun c => c == '?' || c == '#') hostSplit.2
          let query :=
            match pathSplit.2 with
            | '?' :: q => parseQuery (takeUntil (fun c => c == '#') q).1
            | _ => []
          some { scheme := String.mk (c0 :: ctail), host := String.mk hostSplit.1,
                 pathname := String.mk pathSplit.1, query := query }
        | _ =>
          let pathSplit := takeUntil (fun c => c == '?' || c == '#') rest
          let query :=
            match pathSplit.2 with
            | '?' :: q => parseQuery (takeUntil (fun c => c == '#') q).1
            | _ => []
          some { scheme := String.mk (c0 :: ctail), host := "",
                 pathname := String.mk pathSplit.1, query := query }
      else none
  | [] => none

/-- `searchParams.get(key)`: first value bound to the key, or null. -/
def getParam (u : ParsedURL) (key : String) : Option String :=
  (u.query.find? (fun kv => kv.1 == key)).map (fun kv => kv.2)

/-- Observable outcome of `handleDeepLink`: the URL failed to parse (the
exception is caught and logged, nothing extracted), the URL parsed but its
path is not the callback route, or the callback route matched and the
`code` and `state` parameters were extracted. -/
inductive DeepLinkResult
  | parseError
  | ignored
  | callback (code : Option String) (oauthState : Option String)
  deriving DecidableEq, Repr

/-- `handleDeepLink` of `src/src/index.ts` lines 71-89 and
`src/src/bun/index.ts` lines 365-379: parse the URL (a failure is caught);
when the pathname is `/callback` or `//callback`, extract the `code` and
`state` query parameters. -/
def handleDeepLink (url : String) : DeepLinkResult :=
  match parseURL url with
  | none => .parseError
  | some p =>
    if p.pathname == "/callback" || p.pathname == "//callback" then
      .callback (getParam p "code") (getParam p "state")
    else .ignored

/-- State right after startup: `startServer` has run once from the initial
globals (status `starting`, one start attempt recorded, child pid 0
tracked). -/
def bootState : SupState := Bun.startServer goodEnv initState

/-- State after the first readiness marker: the supervisor observed a
successful `running` transition, so `startRetries` is 0. -/
def runningInit : SupState := onStdoutLine "Ready on port 21000" bootState

/-- One abnormal-exit cycle: the exit handler fires with the given non-zero
code, then the scheduled backoff timer (if any) delivers and reruns
`startServer`. -/
def crashStep (env : Env) (s : SupState) (code : Int) : SupState :=
  Bun.fireRestartTimer env (Bun.onExit code s)

/-- A run of consecutive abnormal exits, oldest first. -/
def crashRun (env : Env) (codes : List Int) (s : SupState) : SupState :=
  codes.foldl (crashStep env) s

/-- Closed form of the supervisor state after `k` consecutive abnormal
failures following a `running` transition, carrying the kill log `kl`
accumulated before the run. -/
def midState (kl : List Nat) : Nat → SupState
  | 0 => { serverStatus := .running, startRetries := 0, serverProc := some 0,
           nextPid := 1, killed := kl, pendingRestart := false }
  | 1 => { serverStatus := .starting, startRetries := 1, serverProc := some 1,
           nextPid := 2, killed := kl, pendingRestart := false }
  | 2 => { serverStatus := .starting, startRetries := 2, serverProc := some 2,
           nextPid := 3, killed := kl, pendingRestart := false }
  | 3 => { serverStatus := .starting, startRetries := 3, serverProc := some 3,
           nextPid := 4, killed := kl, pendingRestart := false }
  | _ + 4 => { serverStatus := .error, startRetries := 3, serverProc := none,
               nextPid := 4, killed := kl, pendingRestart := false }

/-- State right after the Electron variant spawned the server once from the
initial globals: status `starting`, `startRetries = 1`. -/
def startingState : SupState := Electron.startServer initState

lemma runningInit_eq : runningInit = midState [] 0 := by decide

lemma crashStep_mid (kl : List Nat) (k : Nat) (c : Int) (hc : c ≠ 0) :
    crashStep goodEnv (midState kl k) c = midState kl (k + 1) := by
  rcases k with _ | _ | _ | _ | k <;>
    simp [crashStep, Bun.onExit, Bun.fireRestartTimer, Bun.startServer,
      killTracked, midState, MAX_START_RETRIES, goodEnv, hc]

lemma crashRun_mid (codes : List Int) : ∀ (kl : List Nat) (k : Nat),
    (∀ c ∈ codes, c ≠ 0) →
    crashRun goodEnv codes (midState kl k) = midState kl (k + codes.length) := by
  induction codes with
  | nil => intro kl k _; simp [crashRun]
  | cons c cs ih =>
    intro kl k h
    have hc : c ≠ 0 := h c (by simp)
    have hcs : ∀ x ∈ cs, x ≠ 0 := fun x hx => h x (by simp [hx])
    have h1 : crashRun goodEnv (c :: cs) (midState kl k)
        = crashRun goodEnv cs (crashStep goodEnv (midState kl k) c) := rfl
    rw [h1, crashStep_mid kl k c hc, ih kl (k + 1) hcs]
    simp only [List.length_cons]
    congr 1
    omega

lemma midState_retries (kl : List Nat) (k : Nat) :
    (midState kl k).startRetries = min k 3 := by
  rcases k with _ | _ | _ | _ | k <;> simp [midState]

lemma midState_nextPid (kl : List Nat) (k : Nat) :
    (midState kl k).nextPid = 1 + min k 3 := by
  rcases k with _ | _ | _ | _ | k <;> simp [midState]

lemma midState_status (kl : List Nat) (k : Nat) (h4 : 4 ≤ k) :
    (midState kl k).serverStatus = .error := by
  rcases k with _ | _ | _ | _ | k
  · omega
  · omega
  · omega
  · omega
  · simp [midState]

lemma manualRestart_mid (kl : List Nat) (k : Nat) (h4 : 4 ≤ k) :
    Bun.manualRestart goodEnv (midState kl k)
      = { serverStatus := .starting, startRetries := 1, serverProc := some 4,
          nextPid := 5, killed := kl, pendingRestart := false } := by
  rcases k with _ | _ | _ | _ | k
  · omega
  · omega
  · omega
  · omega
  · simp [Bun.manualRestart, Bun.startServer, killTracked, midState, goodEnv]

lemma probeFail_runningInit :
    Bun.healthTick goodEnv false runningInit = midState [0] 1 := by decide

lemma electron_start_status (s : SupState) :
    (Electron.startServer s).serverStatus = .starting := rfl

/-- C1: starting from a state just after a successful `running` transition
(`startRetries = 0`), a run of N consecutive abnormal terminations with no
intervening `running` transition and no manual restart performs exactly
`min N 3` automatic restart attempts (visible both in the retry counter and
in the number of spawned pids); from the 4th failure on the would-be restart
is suppressed and status remains `error`, and a manual restart recovers.
The first failure may equivalently be a steady-state health-probe failure
(second conjunct, where the probe failure is failure number one). -/
theorem retry_bound_min3 (codes : List Int) (hc : ∀ c ∈ codes, c ≠ 0) :
    ((crashRun goodEnv codes runningInit).startRetries = min codes.length 3
      ∧ (crashRun goodEnv codes runningInit).nextPid = 1 + min codes.length 3
      ∧ (4 ≤ codes.length →
          (crashRun goodEnv codes runningInit).serverStatus = .error
          ∧ (Bun.manualRestart goodEnv (crashRun goodEnv codes runningInit)).serverStatus
              = .starting
          ∧ (Bun.manualRestart goodEnv (crashRun goodEnv codes runningInit)).startRetries
              = 1))
    ∧ ((crashRun goodEnv codes (Bun.healthTick goodEnv false runningInit)).startRetries
          = min (codes.length + 1) 3
      ∧ (crashRun goodEnv codes (Bun.healthTick goodEnv false runningInit)).nextPid
          = 1 + min (codes.length + 1) 3
      ∧ (3 ≤ codes.length →
          (crashRun goodEnv codes
            (Bun.healthTick goodEnv false runningInit)).serverStatus = .error)) := by
  have h0 : crashRun goodEnv codes runningInit = midState [] (0 + codes.length) := by
    rw [runningInit_eq]; exact crashRun_mid codes [] 0 hc
  have h1 : crashRun goodEnv codes (Bun.healthTick goodEnv false runningInit)
      = midState [0] (1 + codes.length) := by
    rw [probeFail_runningInit]; exact crashRun_mid codes [0] 1 hc
  rw [h0, h1]
  refine ⟨⟨?_, ?_, ?_⟩, ?_, ?_, ?_⟩
  · rw [midState_retries]; omega
  · rw [midState_nextPid]; omega
  · intro h4
    refine ⟨midState_status [] _ (by omega), ?_, ?_⟩
    · rw [manualRestart_mid [] _ (by omega)]
    · rw [manualRestart_mid [] _ (by omega)]
  · rw [midState_retries]; omega
  · rw [midState_nextPid]; omega
  · intro h3
    exact midState_status [0] _ (by omega)

/-- Witness for `retry_bound_min3` at the concrete run with four abnormal
exit codes. -/
theorem retry_bound_min3_witness :
    (∀ c ∈ ([2, 3, -1, 7] : List Int), c ≠ 0)
    ∧ (crashRun goodEnv [2, 3, -1, 7] runningInit).startRetries = 3
    ∧ (crashRun goodEnv [2, 3, -1, 7] runningInit).serverStatus = .error :=
  ⟨by decide, (retry_bound_min3 [2, 3, -1, 7] (by decide)).1.1,
    ((retry_bound_min3 [2, 3, -1, 7] (by decide)).1.2.2 (by decide)).1⟩

/-- C2 counterexample: the claim says every transition to `running` leaves
the retry counter at 0, but the Electron steady-state health poll sets
status to `running` without resetting `startRetries`.  Here the reachable
state right after the first spawn (status `starting`, one start attempt
recorded) receives a healthy poll tick: status becomes `running` while the
counter stays 1. -/
theorem health_poll_running_nonzero_retries_cex :
    startingState.serverStatus ≠ .running
    ∧ (Electron.healthTick true startingState).serverStatus = .running
    ∧ (Electron.healthTick true startingState).startRetries = 1 := by decide

/-- C2 amended: a transition to `running` caused by readiness-marker
detection resets the retry counter to 0; transitions to `running` made by
the steady-state health poll or by the startup readiness-wait loop leave
the counter unchanged (so it can be nonzero). -/
theorem running_transition_retry_reset_amended :
    (∀ (s : SupState) (line : String), readyMarker line = true →
      (onStdoutLine line s).serverStatus = .running
        ∧ (onStdoutLine line s).startRetries = 0)
    ∧ (∀ (s : SupState) (h : Bool), (Electron.healthTick h s).serverStatus = .running →
        (Electron.healthTick h s).startRetries = s.startRetries)
    ∧ (∀ (s : SupState) (h : Bool),
        (Electron.waitForServerTick h s).startRetries = s.startRetries) := by
  refine ⟨?_, ?_, ?_⟩
  · intro s line hm
    simp [onStdoutLine, hm]
  · intro s h hr
    by_cases h1 : h = true ∧ ¬ s.serverStatus = .running
    · simp only [Electron.healthTick, if_pos h1]
    · by_cases h2 : h = false ∧ s.serverStatus = .running
      · exfalso
        by_cases h3 : s.startRetries < MAX_START_RETRIES
        · have hs : (Electron.healthTick h s).serverStatus = .starting := by
            simp only [Electron.healthTick, if_neg h1, if_pos h2, if_pos h3]
            exact electron_start_status _
          rw [hs] at hr
          exact ServerStatus.noConfusion hr
        · have hs : (Electron.healthTick h s).serverStatus = .error := by
            simp only [Electron.healthTick, if_neg h1, if_pos h2, if_neg h3]
          rw [hs] at hr
          exact ServerStatus.noConfusion hr
      · simp only [Electron.healthTick, if_neg h1, if_neg h2]
  · intro s h
    unfold Electron.waitForServerTick
    split_ifs <;> rfl

/-- Witness for `running_transition_retry_reset_amended` at concrete
states. -/
theorem running_transition_retry_reset_amended_witness :
    readyMarker "Ready" = true
    ∧ (onStdoutLine "Ready" bootState).startRetries = 0
    ∧ (Electron.healthTick true startingState).serverStatus = .running
    ∧ (Electron.healthTick true startingState).startRetries = startingState.startRetries
    ∧ (Electron.waitForServerTick true bootState).startRetries = bootState.startRetries :=
  ⟨by decide, (running_transition_retry_reset_amended.1 bootState "Ready" (by decide)).2,
    by decide,
    running_transition_retry_reset_amended.2.1 startingState true (by decide),
    running_transition_retry_reset_amended.2.2 bootState true⟩

/-- C3: the synthetic stdout lines are processed in order; the first leaves
the whole state unchanged, the second transitions status to `running` and
resets the retry counter; detection is exactly the case-sensitive substring
match for `Ready` or `started` on each line. -/
theorem readiness_marker_lines :
    onStdoutLine "compiling..." bootState = bootState
    ∧ (onStdoutLine "Ready on port 21000"
        (onStdoutLine "compiling..." bootState)).serverStatus = .running
    ∧ (onStdoutLine "Ready on port 21000"
        (onStdoutLine "compiling..." bootState)).startRetries = 0
    ∧ bootState.serverStatus ≠ .running
    ∧ readyMarker "compiling..." = false
    ∧ readyMarker "Ready on port 21000" = true
    ∧ readyMarker "ready on port 21000" = false
    ∧ (∀ line : String,
        readyMarker line = (strIncludes line "Ready" || strIncludes line "started"))
    ∧ (∀ (line : String) (s : SupState), readyMarker line = false →
        onStdoutLine line s = s)
    ∧ (∀ (line : String) (s : SupState), readyMarker line = true →
        (onStdoutLine line s).serverStatus = .running
          ∧ (onStdoutLine line s).startRetries = 0) := by
  refine ⟨by decide, by decide, by decide, by decide, by decide, by decide, by decide,
    fun line => rfl, ?_, ?_⟩
  · intro line s hm
    simp [onStdoutLine, hm]
  · intro line s hm
    simp [onStdoutLine, hm]

/-- Witness for `readiness_marker_lines` on a `started` marker line. -/
theorem readiness_marker_lines_witness :
    readyMarker "server started on 21000" = true
    ∧ (onStdoutLine "server started on 21000" initState).serverStatus = .running :=
  ⟨by decide,
    (readiness_marker_lines.2.2.2.2.2.2.2.2.2 "server started on 21000" initState
      (by decide)).1⟩

/-- C4: the health probe returns true exactly when an HTTP response arrives
within the 3 second abort window and its status is 2xx or 304; any other
status, a rejected fetch (connection refused) and a response slower than the
timeout all yield false, and the function is total (the catch swallows every
rejection). -/
theorem health_probe_semantics :
    (∀ e : ProbeEnv, checkServerHealth e = true ↔
      (∃ t, e.respondsAfterMs = some t ∧ t < FETCH_TIMEOUT_MS
        ∧ (respOk e.status = true ∨ e.status = 304)))
    ∧ checkServerHealth { respondsAfterMs := some 50, status := 200 } = true
    ∧ checkServerHealth { respondsAfterMs := some 50, status := 304 } = true
    ∧ checkServerHealth { respondsAfterMs := some 50, status := 500 } = false
    ∧ checkServerHealth { respondsAfterMs := none, status := 200 } = false
    ∧ checkServerHealth { respondsAfterMs := some 5000, status := 200 } = false := by
  refine ⟨?_, by decide, by decide, by decide, by decide, by decide⟩
  rintro ⟨r, st⟩
  rcases r with _ | t
  · simp [checkServerHealth]
  · by_cases ht : t < FETCH_TIMEOUT_MS
    · simp only [checkServerHealth, ht, if_pos, Bool.or_eq_true, beq_iff_eq]
      constructor
      · intro h
        exact ⟨t, rfl, ht, h⟩
      · rintro ⟨t2, ht2, _, h⟩
        exact h
    · have hf : checkServerHealth { respondsAfterMs := some t, status := st } = false := by
        simp [checkServerHealth, ht]
      rw [hf]
      simp only [Bool.false_eq_true, false_iff]
      rintro ⟨t2, ht2, hlt, _⟩
      cases Option.some.inj ht2
      exact ht hlt

/-- Witness for `health_probe_semantics`: a 204 response inside the window
is healthy. -/
theorem health_probe_semantics_witness :
    checkServerHealth { respondsAfterMs := some 100, status := 204 } = true :=
  (health_probe_semantics.1 { respondsAfterMs := some 100, status := 204 }).mpr
    ⟨100, rfl, by decide, Or.inl (by decide)⟩

/-- C5: `startServer` while a process handle is tracked kills the prior
process exactly once (the kill log grows by exactly that pid) before the new
process is spawned, and afterwards exactly the fresh handle is tracked; two
consecutive starts leave no orphan: both earlier pids appear in the kill
log; with no tracked handle nothing is killed.  Proved for the Electrobun
variant with the server artifacts present and for the Electron variant. -/
theorem start_cleanup_exactly_once (s : SupState) (p : Nat)
    (hp : s.serverProc = some p) :
    (Bun.startServer goodEnv s).killed = s.killed ++ [p]
    ∧ (Bun.startServer goodEnv s).serverProc = some s.nextPid
    ∧ (Bun.startServer goodEnv (Bun.startServer goodEnv s)).killed
        = s.killed ++ [p, s.nextPid]
    ∧ (Electron.startServer s).killed = s.killed ++ [p]
    ∧ (Electron.startServer s).serverProc = some s.nextPid
    ∧ (∀ t : SupState, t.serverProc = none →
        (Bun.startServer goodEnv t).killed = t.killed
        ∧ (Electron.startServer t).killed = t.killed) := by
  refine ⟨?_, ?_, ?_, ?_, ?_, ?_⟩
  · simp [Bun.startServer, killTracked, goodEnv, hp]
  · simp [Bun.startServer, killTracked, goodEnv, hp]
  · simp [Bun.startServer, killTracked, goodEnv, hp]
  · simp [Electron.startServer, killTracked, hp]
  · simp [Electron.startServer, killTracked, hp]
  · intro t ht
    constructor
    · simp [Bun.startServer, killTracked, goodEnv, ht]
    · simp [Electron.startServer, killTracked, ht]

/-- Witness for `start_cleanup_exactly_once` at the state after the first
successful start. -/
theorem start_cleanup_exactly_once_witness :
    runningInit.serverProc = some 0
    ∧ (Bun.startServer goodEnv runningInit).killed = runningInit.killed ++ [0] :=
  ⟨by decide, (start_cleanup_exactly_once runningInit 0 (by decide)).1⟩

/-- C6: the deep-link handler extracts `code` and `state` from the
`sigmaauth` callback URL, accepts the doubled leading slash of the
`tokenpass` form, and on a non-URL input the parse failure is caught:
nothing is extracted and no error escapes (the handler is total). -/
theorem deep_link_parsing :
    handleDeepLink "sigmaauth://app/callback?code=abc&state=xyz"
        = .callback (some "abc") (some "xyz")
    ∧ handleDeepLink "tokenpass://app//callback?code=abc"
        = .callback (some "abc") none
    ∧ handleDeepLink "not a url" = .parseError :=
  ⟨rfl, rfl, rfl⟩

/-- C7: settings persistence round-trips and loading falls back to the
defaults for an absent or unreadable store, with each missing field
individually defaulting. -/
theorem settings_round_trip :
    loadSettings (saveSettings { useBetaChannel := true, launchAtLogin := false })
        = { useBetaChannel := true, launchAtLogin := false }
    ∧ (∀ s : Settings, loadSettings (saveSettings s) = s)
    ∧ loadSettings .absent = defaultSettings
    ∧ loadSettings .unreadable = defaultSettings
    ∧ (∀ b : Bool,
        loadSettings (.content { useBetaChannel := some b, launchAtLogin := none })
          = { useBetaChannel := b, launchAtLogin := false })
    ∧ (∀ b : Bool,
        loadSettings (.content { useBetaChannel := none, launchAtLogin := some b })
          = { useBetaChannel := false, launchAtLogin := b }) :=
  ⟨rfl, fun _ => rfl, rfl, rfl, fun _ => rfl, fun _ => rfl⟩

/-- C8: a pid file whose recorded process is dead is treated as absent:
`acquire` succeeds and overwrites it with the current pid; a live recorded
process makes `acquire` fail; an absent file is created. -/
theorem singleton_stale_lock :
    (∀ (alive : Nat → Bool) (cur p : Nat), alive p = false →
      Bun.acquireSingletonLock alive cur (some p) = (true, some cur))
    ∧ (∀ (alive : Nat → Bool) (cur p : Nat), alive p = true →
      Bun.acquireSingletonLock alive cur (some p) = (false, some p))
    ∧ (∀ (alive : Nat → Bool) (cur : Nat),
      Bun.acquireSingletonLock alive cur none = (true, some cur)) := by
  refine ⟨?_, ?_, fun alive cur => rfl⟩
  · intro alive cur p h
    simp [Bun.acquireSingletonLock, h]
  · intro alive cur p h
    simp [Bun.acquireSingletonLock, h]

/-- Witness for `singleton_stale_lock`: pid 5 is the only live process, so
a stale file recording 7 is overwritten and a live file recording 5 wins. -/
theorem singleton_stale_lock_witness :
    Bun.acquireSingletonLock (fun n => n == 5) 9 (some 7) = (true, some 9)
    ∧ Bun.acquireSingletonLock (fun n => n == 5) 9 (some 5) = (false, some 5) :=
  ⟨singleton_stale_lock.1 (fun n => n == 5) 9 7 rfl,
    singleton_stale_lock.2.1 (fun n => n == 5) 9 5 rfl⟩

/-- C9: `cleanup` with no tracked process leaves the supervisor state
unchanged (and raises no error, being total); with a tracked process it
kills it, clears the handle and touches neither status nor retry counter. -/
theorem stop_idempotent :
    (∀ (s : SupState) (pf : Option Nat), s.serverProc = none →
      (Bun.cleanup s pf).1 = s)
    ∧ (∀ (s : SupState) (pf : Option Nat) (p : Nat), s.serverProc = some p →
      (Bun.cleanup s pf).1.serverProc = none
      ∧ (Bun.cleanup s pf).1.killed = s.killed ++ [p]
      ∧ (Bun.cleanup s pf).1.serverStatus = s.serverStatus
      ∧ (Bun.cleanup s pf).1.startRetries = s.startRetries
      ∧ (Bun.cleanup s pf).2 = none) := by
  constructor
  · intro s pf h
    simp [Bun.cleanup, killTracked, h]
  · intro s pf p h
    cases pf <;> simp [Bun.cleanup, killTracked, Bun.releaseSingletonLock, h]

/-- Witness for `stop_idempotent` at the initial state (nothing tracked). -/
theorem stop_idempotent_witness :
    initState.serverProc = none ∧ (Bun.cleanup initState (some 42)).1 = initState :=
  ⟨rfl, stop_idempotent.1 initState (some 42) rfl⟩

/-- C10: the steady-state poll acts only on the edge where status is
`running` and the probe fails: whenever status is not `running` (`error` or
`starting`), a poll tick is a complete no-op in the Electrobun variant, a
healthy probe is a no-op in the Electrobun variant regardless of status, and
a failing poll in the Electron variant is likewise a no-op while not
`running` — so repeated failing polls in `error` never start restarts. -/
theorem health_poll_edge_triggered :
    (∀ (env : Env) (h : Bool) (s : SupState), s.serverStatus ≠ .running →
      Bun.healthTick env h s = s)
    ∧ (∀ (env : Env) (s : SupState), Bun.healthTick env true s = s)
    ∧ (∀ s : SupState, s.serverStatus ≠ .running →
      Electron.healthTick false s = s) := by
  refine ⟨?_, ?_, ?_⟩
  · intro env h s hs
    simp [Bun.healthTick, hs]
  · intro env s
    by_cases hs : s.serverStatus = .running <;> simp [Bun.healthTick, hs]
  · intro s hs
    simp [Electron.healthTick, hs]

/-- Witness for `health_poll_edge_triggered`: a failing poll in the stuck
`error` state changes nothing. -/
theorem health_poll_edge_triggered_witness :
    ({ serverStatus := .error, startRetries := 3, serverProc := none, nextPid := 4,
        killed := [], pendingRestart := false } : SupState).serverStatus ≠ .running
    ∧ Bun.healthTick goodEnv false
        { serverStatus := .error, startRetries := 3, serverProc := none, nextPid := 4,
          killed := [], pendingRestart := false }
      = { serverStatus := .error, startRetries := 3, serverProc := none, nextPid := 4,
          killed := [], pendingRestart := false } :=
  ⟨by decide, health_poll_edge_triggered.1 goodEnv false _ (by decide)⟩

end TokenPass
